import Mathlib

/-!
Verification development for `pyvisa/resources/resource.py` (class `Resource`).

The Python class wraps an external backend (`self.visalib` plus the owning
resource manager).  We embed it shallowly:

* the mutable fields `resource_manager.session` and `self.session` become the
  record `RState` (Python `None` is `Option.none`);
* the backend is a record `Backend` of pure functions whose `Except` results
  model the value returned or the `VisaIOError` raised by each call;
* every `Resource` method becomes a Lean function from the backend and the
  current state to its result; methods also return the list of backend calls
  they issued (`List BCall`), which makes "forwards the handle to the backend"
  and "performs no close" provable statements;
* Python floats are embedded as `PyNum`: NaN, or an exact rational (every
  float is a rational and all comparisons performed by the code are exact);
* the open-retry loop's wall clock is abstracted by the finite list of
  outcomes that the backend's `clear` produces before the 5-second budget
  elapses: the empty list is an elapsed budget, `time.sleep` has no effect.
-/

namespace PyVisa

/-- Modelled from the spec: the backend's fixed-width sentinel for an infinite
timeout (`constants.VI_TMO_INFINITE`, whose defining module is not under
`src/`).  The spec fixes finite timeouts to `[0, 4294967294]`, so the sentinel
is the next 32-bit value, `0xFFFFFFFF`. -/
def VI_TMO_INFINITE : Int := 4294967295

/-- Modelled from the spec: the "device not yet present" warning status
(`constants.VI_SUCCESS_DEV_NPRESENT`, not under `src/`), `0x3FFF007D`. -/
def VI_SUCCESS_DEV_NPRESENT : Int := 1073676413

/-- Modelled from the spec: the "no listeners" error code
(`constants.VI_ERROR_NLISTENERS`, not under `src/`), `0xBFFF005F` as a signed
32-bit value. -/
def VI_ERROR_NLISTENERS : Int := -1073807265

/-- Modelled from the spec: the "attribute not supported" error code
(`constants.VI_ERROR_NSUP_ATTR`, not under `src/`), `0xBFFF001D` signed. -/
def VI_ERROR_NSUP_ATTR : Int := -1073807331

/-- Modelled from the spec: the attribute key `constants.VI_ATTR_TMO_VALUE`
(not under `src/`), `0x3FFF001A`. -/
def VI_ATTR_TMO_VALUE : Nat := 1073676314

/-- Modelled from the spec: the attribute key `constants.VI_ATTR_RSRC_CLASS`
(not under `src/`), `0xBFFF0001`. -/
def VI_ATTR_RSRC_CLASS : Nat := 3221159937

/-- A `VisaIOError` raised by the backend, identified by its status code. -/
structure VisaError where
  code : Int
deriving DecidableEq

/-- A Python exception as seen by `Resource`: a backend `VisaIOError`, the
`ValueError` of the timeout setter, an `AttributeError`/`TypeError` from
applying a string method to a non-string, or any other exception (as raised,
for instance, by a `before_close` override in a subclass). -/
inductive PyErr
  | visa (e : VisaError)
  | valueError
  | attributeError
  | other (n : Nat)
deriving DecidableEq

/-- A Python number flowing into the timeout setter: NaN or an exact value. -/
inductive PyNum
  | nan
  | num (q : ℚ)
deriving DecidableEq

/-- A weakly typed Python value flowing through the attribute primitives. -/
inductive Val
  | num (q : ℚ)
  | nanV
  | str (s : String)
deriving DecidableEq

/-- AccessModes enumeration (`constants.AccessModes`, values per the spec). -/
inductive AccessModes
  | no_lock
  | exclusive_lock
  | shared_lock
deriving DecidableEq

/-- Mutable state of a `Resource`: the owning resource manager's session and
this resource's own session handle; `none` is Python `None` ("unset"). -/
structure RState where
  rmSession : Option Nat
  session : Option Nat
deriving DecidableEq

/-- External backend (`self.visalib` and `open_bare_resource` of the resource
manager).  Modelled from the spec, section 6: each field is one collaborator
call, returning the value produced or the `VisaIOError` raised.  Sessions are
passed as `Option Nat` because Python forwards `self.session` even when it is
`None`. -/
structure Backend where
  openBare : String → AccessModes → Nat → Except VisaError (Nat × Int)
  getAttribute : Option Nat → Nat → Except VisaError (Val × Int)
  setAttribute : Option Nat → Nat → Val → Except VisaError Int
  clear : Option Nat → Except VisaError Int
  closeSession : Option Nat → Except VisaError Int
  lock : Option Nat → AccessModes → Val → Option Nat → Except VisaError (Nat × Int)
  unlock : Option Nat → Except VisaError Int
  installHandler : Option Nat → Nat → Nat → Option Nat → Except VisaError (List Val)

/-- One backend call, as recorded in a trace. -/
inductive BCall
  | openBare (name : String) (mode : AccessModes) (tmo : Nat)
  | getAttr (s : Option Nat) (key : Nat)
  | setAttr (s : Option Nat) (key : Nat) (v : Val)
  | clear (s : Option Nat)
  | closeSession (s : Option Nat)
  | lockC (s : Option Nat) (mode : AccessModes) (tmo : Val) (key : Option Nat)
  | unlockC (s : Option Nat)
  | install (s : Option Nat) (evt : Nat) (handler : Nat) (uh : Option Nat)
deriving DecidableEq

/-- Truncation toward zero, the semantics of Python `int()` on a number. -/
def ratTrunc (q : ℚ) : Int := if 0 ≤ q then ⌊q⌋ else ⌈q⌉

/-- Python `timeout < 0` (False on NaN). -/
def PyNum.ltZero : PyNum → Bool
  | .nan => false
  | .num q => decide (q < 0)

/-- Python `math.isnan(timeout)`. -/
def PyNum.isnan : PyNum → Bool
  | .nan => true
  | .num _ => false

/-- Python `0 <= timeout <= 4294967294` (False on NaN). -/
def PyNum.inRange : PyNum → Bool
  | .nan => false
  | .num q => decide (0 ≤ q ∧ q ≤ 4294967294)

/-- Python `int(timeout)`; never reached on NaN by the setter. -/
def PyNum.truncInt : PyNum → Int
  | .nan => 0
  | .num q => ratTrunc q

/-- Python `v == m` for an integer constant `m` (False on NaN and strings). -/
def Val.eqInt : Val → Int → Bool
  | .num q, m => decide (q = (m : ℚ))
  | .nanV, _ => false
  | .str _, _ => false

/-- Python `s.upper()`; an `AttributeError` on a non-string value. -/
def Val.pyUpper : Val → Except PyErr String
  | .str s => .ok ⟨s.data.map Char.toUpper⟩
  | .num _ => .error .attributeError
  | .nanV => .error .attributeError

/-- Embeds the value computation of the `timeout` setter, resource.py lines
80-85: negative or NaN input becomes the infinite sentinel, input outside
`[0, 4294967294]` raises `ValueError`, anything else is truncated to int. -/
def timeoutEncode (timeout : PyNum) : Except PyErr Int :=
  if timeout.ltZero || timeout.isnan then .ok VI_TMO_INFINITE
  else if !timeout.inRange then .error .valueError
  else .ok timeout.truncInt

/-- Embeds the value computation of the `timeout` getter, resource.py lines
73-76: the sentinel reads back as a NaN float, anything else unchanged. -/
def timeoutDecode (raw : Val) : Val :=
  if raw.eqInt VI_TMO_INFINITE then .nanV else raw

/-- Embeds `Resource.get_visa_attribute` (lines 177-184): forwards
`self.session` and the key to the backend and keeps element `[0]` of the
returned `(value, status)` pair. -/
def Resource.get_visa_attribute (b : Backend) (st : RState) (name : Nat) :
    Except VisaError Val × List BCall :=
  ((b.getAttribute st.session name).map Prod.fst, [.getAttr st.session name])

/-- Embeds `Resource.set_visa_attribute` (lines 186-192): forwards
`self.session`, the key and the state to the backend, discarding the result. -/
def Resource.set_visa_attribute (b : Backend) (st : RState) (name : Nat) (state : Val) :
    Except VisaError Unit × List BCall :=
  ((b.setAttribute st.session name state).map fun _ => (), [.setAttr st.session name state])

/-- Embeds `Resource.clear` (lines 194-197): forwards `self.session`. -/
def Resource.clear (b : Backend) (st : RState) : Except VisaError Unit × List BCall :=
  ((b.clear st.session).map fun _ => (), [.clear st.session])

/-- Embeds the `timeout` getter (lines 69-76): read the raw attribute through
`get_visa_attribute` and decode the sentinel. -/
def Resource.timeout_get (b : Backend) (st : RState) : Except VisaError Val × List BCall :=
  (match (Resource.get_visa_attribute b st VI_ATTR_TMO_VALUE).1 with
   | .error e => .error e
   | .ok v => .ok (timeoutDecode v),
   (Resource.get_visa_attribute b st VI_ATTR_TMO_VALUE).2)

/-- Embeds the `timeout` setter (lines 78-86): encode the input, raising
`ValueError` when the encoder does, then store through `set_visa_attribute`. -/
def Resource.timeout_set (b : Backend) (st : RState) (timeout : PyNum) :
    Except PyErr Unit × List BCall :=
  match timeoutEncode timeout with
  | .error e => (.error e, [])
  | .ok raw =>
    ((Resource.set_visa_attribute b st VI_ATTR_TMO_VALUE (.num (raw : ℚ))).1.mapError PyErr.visa,
      (Resource.set_visa_attribute b st VI_ATTR_TMO_VALUE (.num (raw : ℚ))).2)

/-- Embeds `Resource.resource_class` (lines 92-102): upper-case the class
attribute; on a `VisaIOError` re-raise unless the code is
`VI_ERROR_NSUP_ATTR`, in which case return the literal `Unknown`. -/
def Resource.resource_class (b : Backend) (st : RState) : Except PyErr String × List BCall :=
  (match (Resource.get_visa_attribute b st VI_ATTR_RSRC_CLASS).1 with
   | .ok v => v.pyUpper
   | .error e => if e.code ≠ VI_ERROR_NSUP_ATTR then .error (.visa e) else .ok ("Unknown"),
   (Resource.get_visa_attribute b st VI_ATTR_RSRC_CLASS).2)

/-- Embeds the retry loop of `Resource.open` (lines 141-151).  `clears` is the
sequence of outcomes the backend's `clear` yields before the 5-second budget
elapses; exhausting it is the `while` guard turning false.  A success breaks;
a `VisaIOError` is re-raised unless its code is `VI_ERROR_NLISTENERS`. -/
def openRetryLoopT (s : Option Nat) :
    List (Except VisaError Unit) → Except VisaError Unit × List BCall
  | [] => (.ok (), [])
  | r :: rest =>
    match r with
    | .ok _ => (.ok (), [.clear s])
    | .error e =>
      if e.code ≠ VI_ERROR_NLISTENERS then (.error e, [.clear s])
      else
        ((openRetryLoopT s rest).1, .clear s :: (openRetryLoopT s rest).2)

/-- Embeds `Resource.open` (lines 124-156).  `ob` is the outcome of
`open_bare_resource`; on success `self.session` is assigned the returned
handle before the status is inspected, so the handle is overwritten even when
the retry loop later raises. -/
def Resource.open' (resource_name : String) (access_mode : AccessModes) (open_timeout : Nat)
    (ob : Except VisaError (Nat × Int)) (clears : List (Except VisaError Unit))
    (st : RState) : RState × Except VisaError Unit × List BCall :=
  match ob with
  | .error e => (st, .error e, [.openBare resource_name access_mode open_timeout])
  | .ok (h, status) =>
    let st' := { st with session := some h }
    if status = VI_SUCCESS_DEV_NPRESENT then
      (st', (openRetryLoopT (some h) clears).1,
        .openBare resource_name access_mode open_timeout :: (openRetryLoopT (some h) clears).2)
    else
      (st', .ok (), [.openBare resource_name access_mode open_timeout])

/-- Embeds `Resource.before_close` (lines 158-161): the default hook does
nothing.  Subclass overrides are modelled by passing an arbitrary
`Except PyErr Unit` outcome to `Resource.close`. -/
def Resource.before_close : Except PyErr Unit := .ok ()

/-- Embeds `Resource.close` (lines 163-175): a no-op when the manager session
or the own session is `None`; otherwise run the hook, then the backend close,
then set the session to `None` — an exception from the hook or the backend
propagates and skips the remaining statements. -/
def Resource.close (b : Backend) (hook : Except PyErr Unit) (st : RState) :
    RState × Except PyErr Unit × List BCall :=
  if st.rmSession = none ∨ st.session = none then (st, .ok (), [])
  else
    match hook with
    | .error e => (st, .error e, [])
    | .ok _ =>
      match b.closeSession st.session with
      | .error e => (st, .error (.visa e), [.closeSession st.session])
      | .ok _ => ({ st with session := none }, .ok (), [.closeSession st.session])

/-- Embeds `Resource.lock` (lines 222-235): a `None` timeout defaults to the
`timeout` property (read through the codec); then the backend is asked for a
shared lock with that timeout and the requested key, and element `[0]` of its
`(key, status)` answer is returned. -/
def Resource.lock (b : Backend) (st : RState) (timeout : Option Val)
    (requested_key : Option Nat) : Except PyErr Nat × List BCall :=
  let tdef := match timeout with
              | none => Resource.timeout_get b st
              | some t => (.ok t, [])
  match tdef.1 with
  | .error e => (.error (.visa e), tdef.2)
  | .ok t =>
    (((b.lock st.session .shared_lock t requested_key).map Prod.fst).mapError PyErr.visa,
      tdef.2 ++ [.lockC st.session .shared_lock t requested_key])

/-- Embeds `Resource.unlock` (lines 237-240): forwards `self.session`. -/
def Resource.unlock (b : Backend) (st : RState) : Except VisaError Unit × List BCall :=
  ((b.unlock st.session).map fun _ => (), [.unlockC st.session])

/-- Embeds `Resource.install_handler` (lines 199-209): forwards everything to
the backend and returns the backend's tuple minus its last element (the
status code), i.e. the user-handle part. -/
def Resource.install_handler (b : Backend) (st : RState) (event_type : Nat)
    (handler : Nat) (user_handle : Option Nat) :
    Except VisaError (List Val) × List BCall :=
  ((b.installHandler st.session event_type handler user_handle).map List.dropLast,
    [.install st.session event_type handler user_handle])

/-! Concrete fixtures used by the witness theorems. -/

/-- A well-behaved backend used to instantiate theorems on concrete inputs. -/
def sampleBackend : Backend where
  openBare := fun _ _ _ => .ok (3, 0)
  getAttribute := fun _ k =>
    if k = VI_ATTR_RSRC_CLASS then .ok (.str ("instr"), 0) else .ok (.num 2000, 0)
  setAttribute := fun _ _ _ => .ok 0
  clear := fun _ => .ok 0
  closeSession := fun _ => .ok 0
  lock := fun _ _ _ rk => .ok (rk.getD 42, 0)
  unlock := fun _ => .ok 0
  installHandler := fun _ _ _ uh => .ok [.num ((uh.getD 7 : Nat) : ℚ), .num 0]

/-- A state with both the manager session and the own session set. -/
def st0 : RState := ⟨some 0, some 3⟩

/-! Theorems settling the claims. -/

/-- C1 counterexample: with the manager session and the handle both set, a
`before_close` hook that raises makes `close()` propagate the exception while
the handle is still set — refuting the claim that an escaping exception never
leaves the handle set. -/
theorem c1_counterexample :
    (Resource.close sampleBackend (.error (.other 1)) ⟨some 0, some 5⟩).2.1 =
        .error (.other 1) ∧
    (Resource.close sampleBackend (.error (.other 1)) ⟨some 0, some 5⟩).1.session = some 5 :=
  ⟨rfl, rfl⟩

/-- C1 (amended): when both handles are set, `close()` unsets the handle
exactly when the hook and the backend release both succeed; an exception from
the hook, or from the backend release, propagates out of `close()` with the
handle still set and the state unchanged. -/
theorem c1_close_exception_leaves_handle_set (b : Backend) (hook : Except PyErr Unit)
    (st : RState) (r s : Nat) (hr : st.rmSession = some r) (hs : st.session = some s) :
    ((Resource.close b hook st).1.session = none ↔
      hook = .ok () ∧ ∃ c, b.closeSession (some s) = .ok c) ∧
    (∀ e, hook = .error e → Resource.close b hook st = (st, .error e, [])) ∧
    (∀ e, hook = .ok () → b.closeSession (some s) = .error e →
      Resource.close b hook st = (st, .error (.visa e), [.closeSession (some s)])) ∧
    (∀ c, hook = .ok () → b.closeSession (some s) = .ok c →
      Resource.close b hook st =
        ({ st with session := none }, .ok (), [.closeSession (some s)])) := by
  obtain ⟨rmS, sS⟩ := st
  simp only at hr hs
  subst hr; subst hs
  cases hook with
  | error e => simp [Resource.close]
  | ok u =>
    cases u
    rcases hc : b.closeSession (some s) with e | c
    · simp [Resource.close, hc]
    · simp [Resource.close, hc]

/-- C1 witness: the amended theorem applied to a concrete backend whose
release succeeds and to the default hook, showing a completed close unsets
handle 5. -/
theorem c1_close_witness :
    (Resource.close sampleBackend (.ok ()) ⟨some 0, some 5⟩).1.session = none :=
  (c1_close_exception_leaves_handle_set sampleBackend (.ok ()) ⟨some 0, some 5⟩ 0 5
    rfl rfl).1.mpr ⟨rfl, 0, rfl⟩

/-- Helper: a successful bare open always leaves the state with the returned
handle in the session field, whatever the status and the probe outcomes. -/
theorem open_ok_state (name : String) (mode : AccessModes) (tmo h : Nat) (status : Int)
    (clears : List (Except VisaError Unit)) (st : RState) :
    (Resource.open' name mode tmo (.ok (h, status)) clears st).1 =
      { st with session := some h } := by
  simp only [Resource.open']
  split <;> rfl

/-- Helper: the retry loop never issues a backend close call. -/
theorem openRetryLoopT_no_close (s x : Option Nat) (l : List (Except VisaError Unit)) :
    BCall.closeSession x ∉ (openRetryLoopT s l).2 := by
  induction l with
  | nil => simp [openRetryLoopT]
  | cons r rest ih =>
    cases r with
    | ok u => simp [openRetryLoopT]
    | error e =>
      simp only [openRetryLoopT]
      split
      · simp
      · simp [ih]

/-- Helper: probes that all fail with the no-listeners code exhaust the
budget and the loop finishes without raising. -/
theorem openRetryLoopT_all_nlisteners (s : Option Nat) (l : List (Except VisaError Unit))
    (h : ∀ r ∈ l, r = .error ⟨VI_ERROR_NLISTENERS⟩) :
    (openRetryLoopT s l).1 = .ok () := by
  induction l with
  | nil => rfl
  | cons r rest ih =>
    have hr := h r (by simp)
    subst hr
    have ih' := ih (fun x hx => h x (List.mem_cons_of_mem _ hx))
    simp [openRetryLoopT, ih']

/-- C2: after a successful `open()` the handle is set (not unset); a
completed `close()` (default hook, backend release succeeding) unsets it; and
`close()` invoked with the handle already unset, or with the manager's own
session unset, returns the state unchanged, raises nothing and issues no
backend call. -/
theorem c2_session_lifecycle :
    (∀ name mode tmo ob clears st,
        (Resource.open' name mode tmo ob clears st).2.1 = .ok () →
        (Resource.open' name mode tmo ob clears st).1.session ≠ none) ∧
    (∀ (b : Backend) (st : RState) (r s : Nat) (c : Int),
        st.rmSession = some r → st.session = some s →
        b.closeSession (some s) = .ok c →
        Resource.close b Resource.before_close st =
          ({ st with session := none }, .ok (), [.closeSession (some s)])) ∧
    (∀ (b : Backend) (hook : Except PyErr Unit) (st : RState), st.session = none →
        Resource.close b hook st = (st, .ok (), [])) ∧
    (∀ (b : Backend) (hook : Except PyErr Unit) (st : RState), st.rmSession = none →
        Resource.close b hook st = (st, .ok (), [])) := by
  refine ⟨?_, ?_, ?_, ?_⟩
  · intro name mode tmo ob clears st hok
    rcases ob with e | ⟨h, status⟩
    · simp [Resource.open'] at hok
    · rw [open_ok_state]
      simp
  · intro b st r s c hr hs hc
    obtain ⟨rmS, sS⟩ := st
    simp only at hr hs
    subst hr; subst hs
    simp [Resource.close, Resource.before_close, hc]
  · intro b hook st hs
    simp [Resource.close, hs]
  · intro b hook st hr
    simp [Resource.close, hr]

/-- C2 witness: the lifecycle theorem instantiated on concrete states and the
sample backend. -/
theorem c2_witness :
    (Resource.open' ("GPIB::10") .no_lock 5000 (.ok (3, 0)) [] ⟨some 0, none⟩).1.session ≠
        none ∧
    Resource.close sampleBackend Resource.before_close st0 =
      (⟨some 0, none⟩, .ok (), [.closeSession (some 3)]) ∧
    Resource.close sampleBackend Resource.before_close ⟨some 0, none⟩ =
      (⟨some 0, none⟩, .ok (), []) ∧
    Resource.close sampleBackend Resource.before_close ⟨none, some 3⟩ =
      (⟨none, some 3⟩, .ok (), []) :=
  ⟨c2_session_lifecycle.1 ("GPIB::10") .no_lock 5000 (.ok (3, 0)) [] ⟨some 0, none⟩ rfl,
   c2_session_lifecycle.2.1 sampleBackend st0 0 3 0 rfl rfl rfl,
   c2_session_lifecycle.2.2.1 sampleBackend Resource.before_close ⟨some 0, none⟩ rfl,
   c2_session_lifecycle.2.2.2 sampleBackend Resource.before_close ⟨none, some 3⟩ rfl⟩

/-- C3: in the retry loop entered on the not-yet-present warning status, a
successful clear stops the retrying after that one probe; a clear failure
with the no-listeners code continues with the remaining probes; a clear
failure with any other code makes `open()` return that error immediately;
and when every probe within the budget fails with no-listeners, `open()`
returns without raising and the handle keeps the originally returned value. -/
theorem c3_open_retry (s : Option Nat) (rest : List (Except VisaError Unit))
    (e : VisaError) (name : String) (mode : AccessModes) (tmo h : Nat) (st : RState) :
    (openRetryLoopT s (.ok () :: rest) = (.ok (), [.clear s])) ∧
    (e.code = VI_ERROR_NLISTENERS →
      openRetryLoopT s (.error e :: rest) =
        ((openRetryLoopT s rest).1, .clear s :: (openRetryLoopT s rest).2)) ∧
    (e.code ≠ VI_ERROR_NLISTENERS →
      Resource.open' name mode tmo (.ok (h, VI_SUCCESS_DEV_NPRESENT)) (.error e :: rest) st =
        ({ st with session := some h }, .error e,
          [.openBare name mode tmo, .clear (some h)])) ∧
    (∀ clears : List (Except VisaError Unit),
      (∀ r ∈ clears, r = .error ⟨VI_ERROR_NLISTENERS⟩) →
      (Resource.open' name mode tmo (.ok (h, VI_SUCCESS_DEV_NPRESENT)) clears st).2.1 =
          .ok () ∧
      (Resource.open' name mode tmo (.ok (h, VI_SUCCESS_DEV_NPRESENT)) clears st).1.session =
          some h) := by
  refine ⟨rfl, ?_, ?_, ?_⟩
  · intro hcode
    simp [openRetryLoopT, hcode]
  · intro hcode
    simp [Resource.open', openRetryLoopT, hcode]
  · intro clears hall
    constructor
    · have hloop := openRetryLoopT_all_nlisteners (some h) clears hall
      simp [Resource.open', hloop]
    · rw [open_ok_state]

/-- C3 witness: the retry theorem instantiated on concrete probe sequences:
an immediate success, a hard error with code -5, and a budget of two probes
both failing with the no-listeners code. -/
theorem c3_witness :
    openRetryLoopT (some 3) [.ok ()] = (.ok (), [.clear (some 3)]) ∧
    Resource.open' ("GPIB::10") .no_lock 5000 (.ok (7, VI_SUCCESS_DEV_NPRESENT))
        [.error ⟨-5⟩] st0 =
      (⟨some 0, some 7⟩, .error ⟨-5⟩,
        [.openBare ("GPIB::10") .no_lock 5000, .clear (some 7)]) ∧
    (Resource.open' ("GPIB::10") .no_lock 5000 (.ok (7, VI_SUCCESS_DEV_NPRESENT))
        [.error ⟨VI_ERROR_NLISTENERS⟩, .error ⟨VI_ERROR_NLISTENERS⟩] st0).2.1 = .ok () :=
  ⟨(c3_open_retry (some 3) [] ⟨-5⟩ ("x") .no_lock 0 0 st0).1,
   (c3_open_retry (some 7) [] ⟨-5⟩ ("GPIB::10") .no_lock 5000 7 st0).2.2.1 (by decide),
   ((c3_open_retry (some 7) [] ⟨-5⟩ ("GPIB::10") .no_lock 5000 7 st0).2.2.2
      [.error ⟨VI_ERROR_NLISTENERS⟩, .error ⟨VI_ERROR_NLISTENERS⟩] (by simp)).1⟩

/-- C9: when the handle is already set, a successful bare open unconditionally
overwrites it with the newly returned handle, and `open()` issues no backend
close call for the previous handle. -/
theorem c9_open_overwrites_without_close (name : String) (mode : AccessModes)
    (tmo h s0 : Nat) (status : Int) (clears : List (Except VisaError Unit))
    (st : RState) (hs : st.session = some s0) :
    (Resource.open' name mode tmo (.ok (h, status)) clears st).1.session = some h ∧
    ∀ x, BCall.closeSession x ∉
        (Resource.open' name mode tmo (.ok (h, status)) clears st).2.2 := by
  constructor
  · rw [open_ok_state]
  · intro x
    simp only [Resource.open']
    split
    · simp [openRetryLoopT_no_close]
    · simp

/-- C9 witness: opening on a state whose handle is 3 with a bare open that
returns handle 7 yields handle 7 and a close-free trace. -/
theorem c9_witness :
    (Resource.open' ("GPIB::10") .no_lock 5000 (.ok (7, 0)) [] st0).1.session = some 7 ∧
    ∀ x, BCall.closeSession x ∉
        (Resource.open' ("GPIB::10") .no_lock 5000 (.ok (7, 0)) [] st0).2.2 :=
  c9_open_overwrites_without_close ("GPIB::10") .no_lock 5000 7 3 0 [] st0 rfl

/-- Helper: the setter's value computation on a non-NaN number, with the
Boolean guards of the embedding unfolded to propositions. -/
theorem timeoutEncode_num (r : ℚ) :
    timeoutEncode (.num r) =
      if r < 0 then .ok VI_TMO_INFINITE
      else if ¬ (0 ≤ r ∧ r ≤ 4294967294) then .error .valueError
      else .ok (ratTrunc r) := by
  by_cases h1 : r < 0
  · simp [timeoutEncode, PyNum.ltZero, PyNum.isnan, h1]
  · by_cases h2 : r ≤ 4294967294
    · simp [timeoutEncode, PyNum.ltZero, PyNum.isnan, PyNum.inRange, PyNum.truncInt,
        h1, h2, le_of_not_lt h1]
    · simp [timeoutEncode, PyNum.ltZero, PyNum.isnan, PyNum.inRange, h1, h2]

/-- Helper: an in-range input encodes to its truncation. -/
theorem timeoutEncode_inRange (q : ℚ) (hq0 : 0 ≤ q) (hq1 : q ≤ 4294967294) :
    timeoutEncode (.num q) = .ok (ratTrunc q) := by
  rw [timeoutEncode_num, if_neg (not_lt.mpr hq0), if_neg (not_not_intro ⟨hq0, hq1⟩)]

/-- C4: the timeout write fails with the invalid-argument error exactly on a
number that is neither negative nor NaN and exceeds 4294967294; 4294967295
fails, 4294967294 succeeds and reads back unchanged through the decoder; and
an in-range input is truncated to an integer before being handed to the raw
attribute setter. -/
theorem c4_timeout_write (b : Backend) (st : RState) (q : ℚ)
    (hq0 : 0 ≤ q) (hq1 : q ≤ 4294967294) :
    (∀ t : PyNum, timeoutEncode t = .error .valueError ↔
        ∃ r : ℚ, t = .num r ∧ 0 ≤ r ∧ 4294967294 < r) ∧
    (∀ t e, timeoutEncode t = .error e → e = .valueError) ∧
    timeoutEncode (.num 4294967295) = .error .valueError ∧
    (timeoutEncode (.num 4294967294) = .ok 4294967294 ∧
      timeoutDecode (.num 4294967294) = .num 4294967294) ∧
    Resource.timeout_set b st (.num q) =
      (((b.setAttribute st.session VI_ATTR_TMO_VALUE (.num ((ratTrunc q : Int) : ℚ))).map
          (fun _ => ())).mapError PyErr.visa,
        [.setAttr st.session VI_ATTR_TMO_VALUE (.num ((ratTrunc q : Int) : ℚ))]) := by
  refine ⟨?_, ?_, ?_, ⟨?_, ?_⟩, ?_⟩
  · intro t
    constructor
    · intro h
      cases t with
      | nan => exact absurd h (by simp [timeoutEncode, PyNum.ltZero, PyNum.isnan])
      | num r =>
        rw [timeoutEncode_num] at h
        by_cases h1 : r < 0
        · rw [if_pos h1] at h
          exact absurd h (by simp)
        · rw [if_neg h1] at h
          by_cases h2 : 0 ≤ r ∧ r ≤ 4294967294
          · rw [if_neg (not_not_intro h2)] at h
            exact absurd h (by simp)
          · refine ⟨r, rfl, le_of_not_lt h1, ?_⟩
            by_contra hM
            exact h2 ⟨le_of_not_lt h1, le_of_not_lt hM⟩
    · rintro ⟨r, rfl, h0, hM⟩
      rw [timeoutEncode_num, if_neg (not_lt.mpr h0),
        if_pos (fun hc => absurd hc.2 (not_le.mpr hM))]
  · intro t e h
    cases t with
    | nan => exact absurd h (by simp [timeoutEncode, PyNum.ltZero, PyNum.isnan])
    | num r =>
      rw [timeoutEncode_num] at h
      by_cases h1 : r < 0
      · rw [if_pos h1] at h
        exact absurd h (by simp)
      · rw [if_neg h1] at h
        by_cases h2 : 0 ≤ r ∧ r ≤ 4294967294
        · rw [if_neg (not_not_intro h2)] at h
          exact absurd h (by simp)
        · rw [if_pos h2] at h
          exact ((Except.error.injEq _ _).mp h).symm
  · rw [timeoutEncode_num, if_neg (by norm_num), if_pos (by norm_num)]
  · rw [timeoutEncode_inRange 4294967294 (by norm_num) le_rfl]
    norm_num [ratTrunc]
  · simp [timeoutDecode, Val.eqInt, VI_TMO_INFINITE]
  · rw [Resource.timeout_set, timeoutEncode_inRange q hq0 hq1]
    rfl

/-- C4 witness: 4294967295 is rejected, 4294967294 accepted, and the
non-integer input 5/2 is stored as the truncated integer 2 by the concrete
backend. -/
theorem c4_witness :
    timeoutEncode (.num 4294967295) = .error .valueError ∧
    timeoutEncode (.num 4294967294) = .ok 4294967294 ∧
    Resource.timeout_set sampleBackend st0 (.num (5 / 2)) =
      (.ok (), [.setAttr (some 3) VI_ATTR_TMO_VALUE (.num ((ratTrunc (5 / 2) : Int) : ℚ))]) := by
  have h := c4_timeout_write sampleBackend st0 (5 / 2) (by norm_num) (by norm_num)
  exact ⟨h.2.2.1, h.2.2.2.1.1, h.2.2.2.2.trans rfl⟩

/-- C5: a negative or NaN write stores the infinite sentinel, whose read-back
is the NaN representation; every stored value other than the sentinel reads
back unchanged through the getter. -/
theorem c5_timeout_roundtrip (b : Backend) (st : RState) :
    (∀ q : ℚ, q < 0 → timeoutEncode (.num q) = .ok VI_TMO_INFINITE) ∧
    timeoutEncode .nan = .ok VI_TMO_INFINITE ∧
    timeoutDecode (.num ((VI_TMO_INFINITE : Int) : ℚ)) = .nanV ∧
    (∀ v : Val, v ≠ .num ((VI_TMO_INFINITE : Int) : ℚ) → timeoutDecode v = v) ∧
    (∀ (v : Val) (c : Int), b.getAttribute st.session VI_ATTR_TMO_VALUE = .ok (v, c) →
        (Resource.timeout_get b st).1 = .ok (timeoutDecode v)) := by
  refine ⟨?_, rfl, ?_, ?_, ?_⟩
  · intro q hq
    rw [timeoutEncode_num, if_pos hq]
  · simp [timeoutDecode, Val.eqInt]
  · intro v hv
    rcases v with q | _ | s
    · have hq : q ≠ ((VI_TMO_INFINITE : Int) : ℚ) := fun h => hv (by rw [h])
      simp [timeoutDecode, Val.eqInt, hq]
    · rfl
    · rfl
  · intro v c hvc
    simp [Resource.timeout_get, Resource.get_visa_attribute, hvc, Except.map]

/-- C5 witness: writing -5 stores the sentinel, the sentinel reads back as
NaN, and the stored value 2000 reads back unchanged through the concrete
backend. -/
theorem c5_witness :
    timeoutEncode (.num (-5)) = .ok VI_TMO_INFINITE ∧
    timeoutDecode (.num ((VI_TMO_INFINITE : Int) : ℚ)) = .nanV ∧
    timeoutDecode (.num 2000) = .num 2000 ∧
    (Resource.timeout_get sampleBackend st0).1 = .ok (.num 2000) := by
  have h := c5_timeout_roundtrip sampleBackend st0
  refine ⟨h.1 (-5) (by norm_num), h.2.2.1, h.2.2.2.1 (.num 2000) (by decide), ?_⟩
  exact (h.2.2.2.2 (.num 2000) 0 rfl).trans (by rw [h.2.2.2.1 (.num 2000) (by decide)])

/-- A backend whose class-attribute read fails with attribute-not-supported. -/
def nsupBackend : Backend :=
  { sampleBackend with getAttribute := fun _ _ => .error ⟨VI_ERROR_NSUP_ATTR⟩ }

/-- A backend whose class-attribute read fails with an unrelated error. -/
def otherErrBackend : Backend :=
  { sampleBackend with getAttribute := fun _ _ => .error ⟨-7⟩ }

/-- C6: `resource_class` returns the upper-cased class attribute when the
backend read succeeds; the literal Unknown exactly when the read fails with
the attribute-not-supported code; and propagates every other backend error
unchanged. -/
theorem c6_resource_class (b : Backend) (st : RState) :
    (∀ (s : String) (c : Int),
        b.getAttribute st.session VI_ATTR_RSRC_CLASS = .ok (.str s, c) →
        (Resource.resource_class b st).1 = .ok (⟨s.data.map Char.toUpper⟩ : String)) ∧
    (∀ e : VisaError, b.getAttribute st.session VI_ATTR_RSRC_CLASS = .error e →
        ((e.code = VI_ERROR_NSUP_ATTR → (Resource.resource_class b st).1 = .ok ("Unknown")) ∧
         (e.code ≠ VI_ERROR_NSUP_ATTR →
            (Resource.resource_class b st).1 = .error (.visa e)))) := by
  constructor
  · intro s c hsc
    simp [Resource.resource_class, Resource.get_visa_attribute, hsc, Except.map, Val.pyUpper]
  · intro e he
    constructor
    · intro hcode
      simp [Resource.resource_class, Resource.get_visa_attribute, he, Except.map, hcode]
    · intro hcode
      simp [Resource.resource_class, Resource.get_visa_attribute, he, Except.map, hcode]

/-- C6 witness: the three branches on concrete backends: a class attribute
reading instr upper-cases to INSTR, the not-supported code yields Unknown,
and the unrelated code -7 propagates. -/
theorem c6_witness :
    (Resource.resource_class sampleBackend st0).1 = .ok ("INSTR") ∧
    (Resource.resource_class nsupBackend st0).1 = .ok ("Unknown") ∧
    (Resource.resource_class otherErrBackend st0).1 = .error (.visa ⟨-7⟩) := by
  refine ⟨?_, ?_, ?_⟩
  · exact ((c6_resource_class sampleBackend st0).1 ("instr") 0 rfl).trans rfl
  · exact ((c6_resource_class nsupBackend st0).2 ⟨VI_ERROR_NSUP_ATTR⟩ rfl).1 rfl
  · exact ((c6_resource_class otherErrBackend st0).2 ⟨-7⟩ rfl).2 (by decide)

/-- C7: `lock` with an unspecified timeout defaults it to the value read back
through the timeout codec, always requests a shared lock from the backend
with that timeout and the requested key, and returns the key the backend
assigns: the supplied key when the backend echoes one, the freshly generated
key when none was supplied. -/
theorem c7_lock (b : Backend) (st : RState) :
    (∀ (t : Val) (tr : List BCall), Resource.timeout_get b st = (.ok t, tr) →
        ∀ k : Option Nat, Resource.lock b st none k =
          (((b.lock st.session .shared_lock t k).map Prod.fst).mapError PyErr.visa,
            tr ++ [.lockC st.session .shared_lock t k])) ∧
    (∀ (t : Val) (k : Nat) (c : Int),
        b.lock st.session .shared_lock t (some k) = .ok (k, c) →
        (Resource.lock b st (some t) (some k)).1 = .ok k) ∧
    (∀ (t : Val) (g : Nat) (c : Int),
        b.lock st.session .shared_lock t none = .ok (g, c) →
        (Resource.lock b st (some t) none).1 = .ok g) := by
  refine ⟨?_, ?_, ?_⟩
  · intro t tr hget k
    simp [Resource.lock, hget]
  · intro t k c hb
    simp [Resource.lock, hb, Except.map, Except.mapError]
  · intro t g c hb
    simp [Resource.lock, hb, Except.map, Except.mapError]

/-- C7 witness: with the sample backend (timeout attribute 2000), a defaulted
lock with key 9 reads the timeout, requests a shared lock with it, and
returns 9; a lock with no key returns the freshly generated key 42. -/
theorem c7_witness :
    Resource.lock sampleBackend st0 none (some 9) =
      (.ok 9, [.getAttr (some 3) VI_ATTR_TMO_VALUE,
               .lockC (some 3) .shared_lock (.num 2000) (some 9)]) ∧
    (Resource.lock sampleBackend st0 (some (.num 2000)) none).1 = .ok 42 := by
  have h := c7_lock sampleBackend st0
  exact ⟨(h.1 (.num 2000) [.getAttr (some 3) VI_ATTR_TMO_VALUE] rfl (some 9)).trans
      rfl,
    h.2.2 (.num 2000) 42 0 rfl⟩

/-- C8: `install_handler` forwards the event type, the handler and the user
handle to the backend on this session, and returns the backend's answer with
its trailing status code removed, i.e. the user-handle value the backend
assigned or echoed. -/
theorem c8_install_handler (b : Backend) (st : RState) (evt hd : Nat) (uh : Option Nat) :
    (Resource.install_handler b st evt hd uh =
      ((b.installHandler st.session evt hd uh).map List.dropLast,
        [.install st.session evt hd uh])) ∧
    (∀ (l : List Val) (c : Val),
        b.installHandler st.session evt hd uh = .ok (l ++ [c]) →
        (Resource.install_handler b st evt hd uh).1 = .ok l) := by
  refine ⟨rfl, ?_⟩
  intro l c h
  simp [Resource.install_handler, h, Except.map]

/-- C8 witness: the sample backend echoes the supplied user handle 9 followed
by a status; `install_handler` returns the user-handle part alone. -/
theorem c8_witness :
    (Resource.install_handler sampleBackend st0 1 2 (some 9)).1 =
      .ok [.num (((9 : Nat) : ℚ))] :=
  (c8_install_handler sampleBackend st0 1 2 (some 9)).2 [.num (((9 : Nat) : ℚ))] (.num 0) rfl

/-- C10: with the handle unset, `get_visa_attribute`, `set_visa_attribute`,
`clear`, `lock` and `unlock` perform no local check: each forwards the unset
handle to the backend, and its outcome is exactly the backend's answer at the
unset handle. -/
theorem c10_forward_unset (b : Backend) (st : RState) (hs : st.session = none)
    (name : Nat) (v t : Val) (k : Option Nat) :
    Resource.get_visa_attribute b st name =
      ((b.getAttribute none name).map Prod.fst, [.getAttr none name]) ∧
    Resource.set_visa_attribute b st name v =
      ((b.setAttribute none name v).map (fun _ => ()), [.setAttr none name v]) ∧
    Resource.clear b st = ((b.clear none).map (fun _ => ()), [.clear none]) ∧
    Resource.lock b st (some t) k =
      (((b.lock none .shared_lock t k).map Prod.fst).mapError PyErr.visa,
        [.lockC none .shared_lock t k]) ∧
    Resource.unlock b st = ((b.unlock none).map (fun _ => ()), [.unlockC none]) := by
  refine ⟨?_, ?_, ?_, ?_, ?_⟩ <;>
    simp [Resource.get_visa_attribute, Resource.set_visa_attribute, Resource.clear,
      Resource.lock, Resource.unlock, hs]

/-- C10 witness: on a state whose own session is unset, clear and lock reach
the backend with the unset handle. -/
theorem c10_witness :
    Resource.clear sampleBackend ⟨some 0, none⟩ = (.ok (), [.clear none]) ∧
    (Resource.lock sampleBackend ⟨some 0, none⟩ (some (.num 5)) none).2 =
      [.lockC none .shared_lock (.num 5) none] := by
  have h := c10_forward_unset sampleBackend ⟨some 0, none⟩ rfl 0 (.num 0) (.num 5) none
  exact ⟨h.2.2.1.trans rfl, by rw [h.2.2.2.1]⟩

end PyVisa
